import Mathlib

/-!
Shallow embedding of the frame-presentation loop of `src/main.rs`
(a vulkano "bufferless triangle" program).

The program's main loop mutates a small set of variables:
`dimensions`, `swapchain` (+ its `images`), `framebuffers : Option (Vec _)`,
`recreate_swapchain : bool`, `previous_frame_end : Box<GpuFuture>`, and
`dynamic_state.viewports`.  Each iteration consumes results from the
external collaborators (surface capabilities, `recreate_with_dimension`,
`acquire_next_image`, `then_signal_fence_and_flush`, `poll_events`); those
results are modelled as an `IterInput` injected per iteration, and one
iteration of the loop body is the function `iterate`.

GPU futures are modelled structurally (`GpuFut`), with ghost identifiers
allocated from a counter so that freshness and replacement of the
in-flight token can be stated.  `f32` values arising from `u32 as f32`
casts are modelled as exact rationals: every extent component involved is
far below 2^24, where the cast is exact.

`iterate` also returns the ordered list of pipeline steps the iteration
actually performed (`StepTag`), so that ordering properties ("no
submission occurred", "events are polled only after presenting") can be
stated directly.
-/

/-- A surface extent in pixels, `[u32; 2]` in the source. -/
abbrev Extent := Nat × Nat

/-- Exact model of the `f32` values appearing in the loop (viewport
dimensions, clear color).  All values involved are integers below 2^24,
where `u32 as f32` is exact, so rationals model them faithfully. -/
abbrev F32 := Rat

/-- Model of the `as f32` cast on extent components. -/
def f32ofNat (n : Nat) : F32 := (n : Rat)

/-- The fields of `surface.capabilities(physical)` that the loop reads.
`current_extent` is `None` when the surface reports no deterministic
extent. -/
structure Caps where
  currentExtent : Option Extent
  minExtent : Extent
  maxExtent : Extent
  minImageCount : Nat
deriving DecidableEq

/-- A framebuffer built by `Framebuffer::start(render_pass).add(image)`:
it binds exactly one swapchain image, identified here by its id. -/
structure Framebuffer where
  image : Nat
deriving DecidableEq

/-- One recorded draw call.  `BufferlessVertices { vertices: 3, instances: 1 }`
supplies no vertex and no index buffers. -/
structure DrawCall where
  vertexCount : Nat
  instanceCount : Nat
  vertexBufferCount : Nat
  indexBufferCount : Nat
deriving DecidableEq

/-- One recorded render pass: `begin_render_pass(framebuffer, false, clear)`
followed by its draws and `end_render_pass`. -/
structure RenderPassRec where
  target : Framebuffer
  clearColor : F32 × F32 × F32 × F32
  draws : List DrawCall
deriving DecidableEq

/-- A recorded primary command buffer: the ordered render passes it holds. -/
structure CommandBuffer where
  passes : List RenderPassRec
deriving DecidableEq

/-- Structural model of the `GpuFuture` combinator chain.  `now` is
`sync::now(device)`; `acquired` is the future returned by
`acquire_next_image`; `fence` is the token returned by
`then_signal_fence_and_flush`.  The `Nat` arguments are ghost identifiers
allocated from `LoopState.futureCounter` so freshness can be stated. -/
inductive GpuFut
  | now (id : Nat)
  | acquired (id : Nat)
  | join (a b : GpuFut)
  | execute (f : GpuFut) (cb : CommandBuffer)
  | present (f : GpuFut) (imageNum : Nat)
  | fence (f : GpuFut) (id : Nat)
deriving DecidableEq

/-- The ghost identifier at the head of a future token. -/
def tokId : GpuFut → Nat
  | .now i => i
  | .acquired i => i
  | .fence _ i => i
  | .join a _ => tokId a
  | .execute a _ => tokId a
  | .present a _ => tokId a

/-- Result of `swapchain.recreate_with_dimension`, injected by the
environment.  `ok` carries the image ids of the new chain. -/
inductive RecreateResult
  | ok (newImages : List Nat)
  | unsupportedDimensions
  | otherError (msg : String)
deriving DecidableEq

/-- Result of `swapchain::acquire_next_image`, injected by the environment. -/
inductive AcquireResult
  | ok (imageNum : Nat)
  | outOfDate
  | otherError (msg : String)
deriving DecidableEq

/-- Result of `then_signal_fence_and_flush`, injected by the environment. -/
inductive FlushResult
  | ok
  | outOfDate
  | otherError (msg : String)
deriving DecidableEq

/-- A window event delivered by `events_loop.poll_events`.  The source
only inspects `CloseRequested`; everything else falls into the `_` arm. -/
inductive WEvent
  | closeRequested
  | resized (newExtent : Extent)
  | other
deriving DecidableEq

/-- The collaborator results one loop iteration may consume. -/
structure IterInput where
  caps : Caps
  recreate : RecreateResult
  acquire : AcquireResult
  flush : FlushResult
  events : List WEvent
deriving DecidableEq

/-- The mutable state of the main loop. -/
structure LoopState where
  dimensions : Extent
  swapchainExtent : Extent
  images : List Nat
  framebuffers : Option (List Framebuffer)
  recreateSwapchain : Bool
  previousFrameEnd : GpuFut
  viewportDims : F32 × F32
  futureCounter : Nat
deriving DecidableEq

/-- Tagged outcome of one completed loop iteration.  `droppedFrame`
records the message the source prints (`println!("{:?}", e)`) for a
non-fatal flush error. -/
inductive FrameOutcome
  | presented
  | swapchainStale
  | droppedFrame (msg : String)
deriving DecidableEq

/-- Control result of one iteration: continue looping, return from `main`
(close requested), or abort the process (`panic!` / `unwrap` failure). -/
inductive IterResult
  | next (s : LoopState) (out : FrameOutcome)
  | done (s : LoopState) (out : FrameOutcome)
  | panic (msg : String)
deriving DecidableEq

/-- Pipeline steps an iteration can perform, in source order. -/
inductive StepTag
  | cleanup
  | chainRecreate
  | fbRebuild
  | imageAcquire
  | submit
  | present
  | eventPoll
deriving DecidableEq

/-- An iteration's control result together with the ordered steps it
actually performed. -/
structure IterOut where
  result : IterResult
  steps : List StepTag
deriving DecidableEq

/-- The command buffer recorded each frame: one render pass against the
chosen framebuffer, clear color `[0.0, 0.0, 1.0, 1.0]`, and a single
`draw` with `BufferlessVertices { vertices: 3, instances: 1 }` (no vertex
or index buffers). -/
def recordCommands (fb : Framebuffer) : CommandBuffer :=
  { passes := [ { target := fb
                , clearColor := (0, 0, 1, 1)
                , draws := [ { vertexCount := 3
                             , instanceCount := 1
                             , vertexBufferCount := 0
                             , indexBufferCount := 0 } ] } ] }

/-- The `poll_events` closure: fold over the pending events, setting
`done` when a `CloseRequested` is seen. -/
def pollDone (evs : List WEvent) : Bool :=
  evs.foldl (fun d ev => match ev with | .closeRequested => true | _ => d) false

/-- Viewport dimensions derived from an extent:
`[dimensions[0] as f32, dimensions[1] as f32]`. -/
def viewportOf (e : Extent) : F32 × F32 := (f32ofNat e.1, f32ofNat e.2)

/-- Tail of an iteration: drain `poll_events` and either return from
`main` or continue the loop. -/
def eventPhase (inp : IterInput) (s : LoopState) (steps : List StepTag)
    (out : FrameOutcome) : IterOut :=
  let steps := steps ++ [StepTag.eventPoll]
  if pollDone inp.events then ⟨.done s out, steps⟩ else ⟨.next s out, steps⟩

/-- Submission and presentation: record the command buffer, compose the
future chain `previous_frame_end.join(acquire).then_execute(cb)
.then_swapchain_present(image_num).then_signal_fence_and_flush()`, and
reconcile the flush result exactly as the source's `match future` does. -/
def submitPhase (inp : IterInput) (s : LoopState) (steps : List StepTag)
    (fb : Framebuffer) (imageNum : Nat) : IterOut :=
  let commandBuffer := recordCommands fb
  let acquireFuture := GpuFut.acquired s.futureCounter
  let future := GpuFut.fence
    (GpuFut.present
      (GpuFut.execute (GpuFut.join s.previousFrameEnd acquireFuture) commandBuffer)
      imageNum)
    (s.futureCounter + 1)
  let steps := steps ++ [StepTag.submit, StepTag.present]
  match inp.flush with
  | .ok =>
      eventPhase inp
        { s with previousFrameEnd := future, futureCounter := s.futureCounter + 2 }
        steps FrameOutcome.presented
  | .outOfDate =>
      eventPhase inp
        { s with recreateSwapchain := true
               , previousFrameEnd := GpuFut.now (s.futureCounter + 1)
               , futureCounter := s.futureCounter + 2 }
        steps FrameOutcome.swapchainStale
  | .otherError e =>
      eventPhase inp
        { s with previousFrameEnd := GpuFut.now (s.futureCounter + 1)
               , futureCounter := s.futureCounter + 2 }
        steps (FrameOutcome.droppedFrame e)

/-- Image acquisition: `acquire_next_image` with its `match`.  `OutOfDate`
sets the staleness flag and `continue`s; any other error is `panic!`.
On success the framebuffer at the acquired index is looked up
(`framebuffers.as_ref().unwrap()[image_num]`; an out-of-range index would
be an indexing panic). -/
def acquirePhase (inp : IterInput) (s : LoopState) (steps : List StepTag) : IterOut :=
  let steps := steps ++ [StepTag.imageAcquire]
  match inp.acquire with
  | .outOfDate => ⟨.next { s with recreateSwapchain := true } .swapchainStale, steps⟩
  | .otherError e => ⟨.panic e, steps⟩
  | .ok imageNum =>
      match (s.framebuffers.getD [])[imageNum]? with
      | none => ⟨.panic "index out of bounds", steps⟩
      | some fb => submitPhase inp s steps fb imageNum

/-- Lazy framebuffer rebuild: `if framebuffers.is_none() { framebuffers =
Some(images.iter().map(..).collect()) }` — one binding per image, index
aligned. -/
def fbPhase (inp : IterInput) (s : LoopState) (steps : List StepTag) : IterOut :=
  if s.framebuffers.isNone then
    acquirePhase inp { s with framebuffers := some (s.images.map Framebuffer.mk) }
      (steps ++ [StepTag.fbRebuild])
  else
    acquirePhase inp s steps

/-- One iteration of the main loop body.  `cleanup_finished` purges
driver bookkeeping only, so it changes no modelled state.  When the
staleness flag is set: `dimensions` is reassigned from
`capabilities.current_extent.unwrap()` (a panic when `None`), and
`recreate_with_dimension(dimensions)` is matched — `UnsupportedDimensions`
`continue`s with everything else untouched, other errors `panic!`, and
success replaces the chain and images, clears `framebuffers`, resets the
viewport, and clears the flag. -/
def iterate (inp : IterInput) (s : LoopState) : IterOut :=
  let steps := [StepTag.cleanup]
  if s.recreateSwapchain then
    match inp.caps.currentExtent with
    | none => ⟨.panic "called Option::unwrap() on a None value", steps⟩
    | some dims =>
      let steps := steps ++ [StepTag.chainRecreate]
      match inp.recreate with
      | .unsupportedDimensions =>
          ⟨.next { s with dimensions := dims } .swapchainStale, steps⟩
      | .otherError e => ⟨.panic e, steps⟩
      | .ok newImages =>
          fbPhase inp
            { s with dimensions := dims
                   , swapchainExtent := dims
                   , images := newImages
                   , framebuffers := none
                   , viewportDims := viewportOf dims
                   , recreateSwapchain := false }
            steps
  else
    fbPhase inp s steps

/-- The extent the startup code passes to `Swapchain::new`:
`caps.current_extent.unwrap_or([1024, 768])`. -/
def initialRequestedExtent (caps : Caps) : Extent :=
  caps.currentExtent.getD (1024, 768)

/-- The loop state right after startup (swapchain created, `framebuffers
= None`, `recreate_swapchain = false`, `previous_frame_end =
Box::new(now(device))`, viewport from the startup dimensions). -/
def initialState (caps : Caps) (initImages : List Nat) : LoopState :=
  let dims := initialRequestedExtent caps
  { dimensions := dims
  , swapchainExtent := dims
  , images := initImages
  , framebuffers := none
  , recreateSwapchain := false
  , previousFrameEnd := GpuFut.now 0
  , viewportDims := viewportOf dims
  , futureCounter := 1 }

/-- Result of running the loop on a finite list of injected iteration
inputs: still running (inputs exhausted), returned from `main`, or
aborted.  The trace records each iteration's outcome. -/
inductive RunResult
  | running (s : LoopState) (trace : List FrameOutcome)
  | terminated (s : LoopState) (trace : List FrameOutcome)
  | panicked (msg : String) (trace : List FrameOutcome)
deriving DecidableEq

/-- Run the loop, one `IterInput` per iteration. -/
def run : List IterInput → LoopState → RunResult
  | [], s => .running s []
  | inp :: rest, s =>
    match (iterate inp s).result with
    | .panic m => .panicked m []
    | .done s2 out => .terminated s2 [out]
    | .next s2 out =>
      match run rest s2 with
      | .running s3 tr => .running s3 (out :: tr)
      | .terminated s3 tr => .terminated s3 (out :: tr)
      | .panicked m tr => .panicked m (out :: tr)

/-- The successive values of `previous_frame_end` after each iteration of
a run. -/
def tokenTrace : List IterInput → LoopState → List GpuFut
  | [], _ => []
  | inp :: rest, s =>
    match (iterate inp s).result with
    | .panic _ => []
    | .done s2 _ => [s2.previousFrameEnd]
    | .next s2 _ => s2.previousFrameEnd :: tokenTrace rest s2

/-- The state a finished iteration hands to the next one (`none` on
abort). -/
def succState : IterResult → Option LoopState
  | .next s _ => some s
  | .done s _ => some s
  | .panic _ => none

/-! ### Branch lemmas for the phases of an iteration -/

theorem pollDone_aux (evs : List WEvent) (d : Bool) :
    evs.foldl (fun d ev => match ev with | WEvent.closeRequested => true | _ => d) d =
    (d || evs.any (fun ev => match ev with | WEvent.closeRequested => true | _ => false)) := by
  induction evs generalizing d with
  | nil => simp
  | cons e rest ih => cases e <;> simp [List.foldl_cons, List.any_cons, ih]

theorem pollDone_eq_false (evs : List WEvent)
    (h : WEvent.closeRequested ∉ evs) : pollDone evs = false := by
  unfold pollDone
  rw [pollDone_aux]
  simp only [Bool.false_or, List.any_eq_false]
  intro ev hev
  cases ev with
  | closeRequested => exact absurd hev h
  | resized e => simp
  | other => simp

theorem eventPhase_continue (inp : IterInput) (s : LoopState) (steps : List StepTag)
    (out : FrameOutcome) (h : pollDone inp.events = false) :
    eventPhase inp s steps out = ⟨.next s out, steps ++ [StepTag.eventPoll]⟩ := by
  unfold eventPhase
  rw [h]
  rfl

theorem eventPhase_steps (inp : IterInput) (s : LoopState) (steps : List StepTag)
    (out : FrameOutcome) :
    (eventPhase inp s steps out).steps = steps ++ [StepTag.eventPoll] := by
  unfold eventPhase
  split <;> rfl

theorem submitPhase_flush_ok (inp : IterInput) (s : LoopState) (steps : List StepTag)
    (fb : Framebuffer) (n : Nat) (h : inp.flush = .ok) :
    submitPhase inp s steps fb n =
      eventPhase inp
        { s with previousFrameEnd :=
                   GpuFut.fence
                     (GpuFut.present
                       (GpuFut.execute
                         (GpuFut.join s.previousFrameEnd (GpuFut.acquired s.futureCounter))
                         (recordCommands fb))
                       n)
                     (s.futureCounter + 1)
               , futureCounter := s.futureCounter + 2 }
        (steps ++ [StepTag.submit, StepTag.present]) FrameOutcome.presented := by
  unfold submitPhase
  rw [h]

theorem submitPhase_flush_outOfDate (inp : IterInput) (s : LoopState) (steps : List StepTag)
    (fb : Framebuffer) (n : Nat) (h : inp.flush = .outOfDate) :
    submitPhase inp s steps fb n =
      eventPhase inp
        { s with recreateSwapchain := true
               , previousFrameEnd := GpuFut.now (s.futureCounter + 1)
               , futureCounter := s.futureCounter + 2 }
        (steps ++ [StepTag.submit, StepTag.present]) FrameOutcome.swapchainStale := by
  unfold submitPhase
  rw [h]

theorem submitPhase_flush_err (inp : IterInput) (s : LoopState) (steps : List StepTag)
    (fb : Framebuffer) (n : Nat) (e : String) (h : inp.flush = .otherError e) :
    submitPhase inp s steps fb n =
      eventPhase inp
        { s with previousFrameEnd := GpuFut.now (s.futureCounter + 1)
               , futureCounter := s.futureCounter + 2 }
        (steps ++ [StepTag.submit, StepTag.present]) (FrameOutcome.droppedFrame e) := by
  unfold submitPhase
  rw [h]

theorem submitPhase_steps (inp : IterInput) (s : LoopState) (steps : List StepTag)
    (fb : Framebuffer) (n : Nat) :
    (submitPhase inp s steps fb n).steps =
      steps ++ [StepTag.submit, StepTag.present, StepTag.eventPoll] := by
  unfold submitPhase
  cases h : inp.flush <;> simp [eventPhase_steps]

theorem acquirePhase_outOfDate (inp : IterInput) (s : LoopState) (steps : List StepTag)
    (h : inp.acquire = .outOfDate) :
    acquirePhase inp s steps =
      ⟨.next { s with recreateSwapchain := true } FrameOutcome.swapchainStale,
       steps ++ [StepTag.imageAcquire]⟩ := by
  unfold acquirePhase
  rw [h]

theorem acquirePhase_err (inp : IterInput) (s : LoopState) (steps : List StepTag)
    (e : String) (h : inp.acquire = .otherError e) :
    acquirePhase inp s steps = ⟨.panic e, steps ++ [StepTag.imageAcquire]⟩ := by
  unfold acquirePhase
  rw [h]

theorem acquirePhase_ok (inp : IterInput) (s : LoopState) (steps : List StepTag)
    (n : Nat) (fb : Framebuffer) (h : inp.acquire = .ok n)
    (hfb : (s.framebuffers.getD [])[n]? = some fb) :
    acquirePhase inp s steps = submitPhase inp s (steps ++ [StepTag.imageAcquire]) fb n := by
  unfold acquirePhase
  simp only [h, hfb]

theorem acquirePhase_ok_oob (inp : IterInput) (s : LoopState) (steps : List StepTag)
    (n : Nat) (h : inp.acquire = .ok n)
    (hfb : (s.framebuffers.getD [])[n]? = none) :
    acquirePhase inp s steps = ⟨.panic "index out of bounds", steps ++ [StepTag.imageAcquire]⟩ := by
  unfold acquirePhase
  simp only [h, hfb]

theorem fbPhase_none (inp : IterInput) (s : LoopState) (steps : List StepTag)
    (h : s.framebuffers = none) :
    fbPhase inp s steps =
      acquirePhase inp { s with framebuffers := some (s.images.map Framebuffer.mk) }
        (steps ++ [StepTag.fbRebuild]) := by
  unfold fbPhase
  rw [h]
  rfl

theorem fbPhase_some (inp : IterInput) (s : LoopState) (steps : List StepTag)
    (fbs : List Framebuffer) (h : s.framebuffers = some fbs) :
    fbPhase inp s steps = acquirePhase inp s steps := by
  unfold fbPhase
  rw [h]
  rfl

theorem iterate_flag_false (inp : IterInput) (s : LoopState)
    (h : s.recreateSwapchain = false) :
    iterate inp s = fbPhase inp s [StepTag.cleanup] := by
  unfold iterate
  rw [h]
  rfl

theorem iterate_flag_true_none (inp : IterInput) (s : LoopState)
    (hf : s.recreateSwapchain = true) (he : inp.caps.currentExtent = none) :
    iterate inp s =
      ⟨.panic "called Option::unwrap() on a None value", [StepTag.cleanup]⟩ := by
  unfold iterate
  rw [hf, he]
  rfl

theorem iterate_recreate_unsupported (inp : IterInput) (s : LoopState) (d : Extent)
    (hf : s.recreateSwapchain = true) (he : inp.caps.currentExtent = some d)
    (hr : inp.recreate = .unsupportedDimensions) :
    iterate inp s =
      ⟨.next { s with dimensions := d } FrameOutcome.swapchainStale,
       [StepTag.cleanup, StepTag.chainRecreate]⟩ := by
  unfold iterate
  rw [hf, he, hr]
  rfl

theorem iterate_recreate_err (inp : IterInput) (s : LoopState) (d : Extent) (e : String)
    (hf : s.recreateSwapchain = true) (he : inp.caps.currentExtent = some d)
    (hr : inp.recreate = .otherError e) :
    iterate inp s = ⟨.panic e, [StepTag.cleanup, StepTag.chainRecreate]⟩ := by
  unfold iterate
  rw [hf, he, hr]
  rfl

theorem iterate_recreate_ok (inp : IterInput) (s : LoopState) (d : Extent)
    (newImages : List Nat)
    (hf : s.recreateSwapchain = true) (he : inp.caps.currentExtent = some d)
    (hr : inp.recreate = .ok newImages) :
    iterate inp s =
      fbPhase inp
        { s with dimensions := d
               , swapchainExtent := d
               , images := newImages
               , framebuffers := none
               , viewportDims := viewportOf d
               , recreateSwapchain := false }
        [StepTag.cleanup, StepTag.chainRecreate] := by
  unfold iterate
  rw [hf, he, hr]
  rfl

/-! ### Step-list shape lemmas -/

theorem acquirePhase_steps_append (inp : IterInput) (s : LoopState) (steps : List StepTag) :
    ∃ t, (acquirePhase inp s steps).steps = steps ++ t ∧
      StepTag.chainRecreate ∉ t := by
  cases ha : inp.acquire with
  | outOfDate =>
    exact ⟨[StepTag.imageAcquire], by rw [acquirePhase_outOfDate _ _ _ ha], by decide⟩
  | otherError e =>
    exact ⟨[StepTag.imageAcquire], by rw [acquirePhase_err _ _ _ e ha], by decide⟩
  | ok n =>
    cases hfb : (s.framebuffers.getD [])[n]? with
    | none =>
      exact ⟨[StepTag.imageAcquire], by rw [acquirePhase_ok_oob _ _ _ n ha hfb], by decide⟩
    | some fb =>
      refine ⟨[StepTag.imageAcquire, StepTag.submit, StepTag.present, StepTag.eventPoll],
        ?_, by decide⟩
      rw [acquirePhase_ok _ _ _ n fb ha hfb, submitPhase_steps]
      simp

theorem fbPhase_steps_append (inp : IterInput) (s : LoopState) (steps : List StepTag) :
    ∃ t, (fbPhase inp s steps).steps = steps ++ t ∧
      StepTag.chainRecreate ∉ t := by
  cases hf : s.framebuffers with
  | none =>
    rw [fbPhase_none _ _ _ hf]
    obtain ⟨t, ht, hc⟩ := acquirePhase_steps_append ..
    refine ⟨[StepTag.fbRebuild] ++ t, by rw [ht]; simp, ?_⟩
    intro hm
    simp only [List.mem_append, List.mem_singleton] at hm
    rcases hm with hm | hm
    · exact absurd hm (by decide)
    · exact absurd hm hc
  | some fbs =>
    rw [fbPhase_some _ _ _ fbs hf]
    exact acquirePhase_steps_append ..

theorem iterate_acquire_first_of_stale (inp : IterInput) (s : LoopState)
    (hflag : s.recreateSwapchain = true)
    (hmem : StepTag.imageAcquire ∈ (iterate inp s).steps) :
    (iterate inp s).steps.take 2 = [StepTag.cleanup, StepTag.chainRecreate] := by
  cases he : inp.caps.currentExtent with
  | none =>
    rw [iterate_flag_true_none inp s hflag he] at hmem
    simp at hmem
  | some d =>
    cases hr : inp.recreate with
    | unsupportedDimensions =>
      rw [iterate_recreate_unsupported inp s d hflag he hr] at hmem
      simp at hmem
    | otherError e =>
      rw [iterate_recreate_err inp s d e hflag he hr] at hmem
      simp at hmem
    | ok imgs =>
      rw [iterate_recreate_ok inp s d imgs hflag he hr]
      obtain ⟨t, ht, -⟩ := fbPhase_steps_append ..
      rw [ht]
      rfl

theorem acquirePhase_poll_present (inp : IterInput) (s : LoopState) (steps : List StepTag)
    (h : StepTag.eventPoll ∉ steps) :
    StepTag.eventPoll ∈ (acquirePhase inp s steps).steps →
    StepTag.present ∈ (acquirePhase inp s steps).steps := by
  cases ha : inp.acquire with
  | outOfDate =>
    rw [acquirePhase_outOfDate _ _ _ ha]
    intro hm
    simp only [List.mem_append, List.mem_singleton] at hm
    rcases hm with hm | hm
    · exact absurd hm h
    · exact absurd hm (by decide)
  | otherError e =>
    rw [acquirePhase_err _ _ _ e ha]
    intro hm
    simp only [List.mem_append, List.mem_singleton] at hm
    rcases hm with hm | hm
    · exact absurd hm h
    · exact absurd hm (by decide)
  | ok n =>
    cases hfb : (s.framebuffers.getD [])[n]? with
    | none =>
      rw [acquirePhase_ok_oob _ _ _ n ha hfb]
      intro hm
      simp only [List.mem_append, List.mem_singleton] at hm
      rcases hm with hm | hm
      · exact absurd hm h
      · exact absurd hm (by decide)
    | some fb =>
      rw [acquirePhase_ok _ _ _ n fb ha hfb, submitPhase_steps]
      intro _
      simp

theorem fbPhase_poll_present (inp : IterInput) (s : LoopState) (steps : List StepTag)
    (h : StepTag.eventPoll ∉ steps) :
    StepTag.eventPoll ∈ (fbPhase inp s steps).steps →
    StepTag.present ∈ (fbPhase inp s steps).steps := by
  cases hf : s.framebuffers with
  | none =>
    rw [fbPhase_none _ _ _ hf]
    refine acquirePhase_poll_present _ _ _ ?_
    intro hm
    simp only [List.mem_append, List.mem_singleton] at hm
    rcases hm with hm | hm
    · exact absurd hm h
    · exact absurd hm (by decide)
  | some fbs =>
    rw [fbPhase_some _ _ _ fbs hf]
    exact acquirePhase_poll_present _ _ _ h

/-! ### Concrete fixtures -/

/-- Surface capabilities reporting a deterministic 800 × 600 extent. -/
def caps800 : Caps := ⟨some (800, 600), (1, 1), (4096, 4096), 2⟩

/-- Surface capabilities reporting a deterministic 400 × 300 extent. -/
def caps400 : Caps := ⟨some (400, 300), (1, 1), (4096, 4096), 2⟩

/-- Surface capabilities with no deterministic current extent, whose
supported extent range tops out below the hard-coded 1024 × 768 default. -/
def capsNone : Caps := ⟨none, (1, 1), (800, 600), 2⟩

/-- Error-free collaborator results: recreation succeeds, image 0 is
acquired, the flush succeeds, and no window events are pending. -/
def cleanInput (caps : Caps) : IterInput := ⟨caps, .ok [], .ok 0, .ok, []⟩

/-- A healthy mid-run state: an 800 × 600 chain with two images, built
framebuffers, no staleness, and an already-complete in-flight token. -/
def steadyState : LoopState :=
  ⟨(800, 600), (800, 600), [10, 11], some [⟨10⟩, ⟨11⟩], false, .now 0,
   viewportOf (800, 600), 1⟩

/-- `steadyState` with the staleness flag set. -/
def stale800 : LoopState := { steadyState with recreateSwapchain := true }

/-- Input whose chain recreation is rejected with `UnsupportedDimensions`. -/
def inpUnsupported : IterInput :=
  { caps := caps400, recreate := .unsupportedDimensions, acquire := .ok 0
  , flush := .ok, events := [] }

/-- `inpUnsupported` with a pending close request. -/
def inpUnsupportedClose : IterInput :=
  { inpUnsupported with events := [WEvent.closeRequested] }

/-- Input whose image acquisition reports `OutOfDate`. -/
def inpAcqOOD : IterInput := { cleanInput caps800 with acquire := .outOfDate }

/-! ### Claim theorems -/

/-- C1: if chain recreation fails with `UnsupportedDimensions`, the
iteration continues without error: the chain extent, image list,
framebuffers, viewport state, and in-flight token are all unchanged, the
staleness flag stays set, and the next iteration (whenever the surface
reports a usable extent) attempts chain recreation again. -/
theorem c1_unsupported_extent_recovery (inp : IterInput) (s : LoopState) (d : Extent)
    (hflag : s.recreateSwapchain = true)
    (hext : inp.caps.currentExtent = some d)
    (hrec : inp.recreate = RecreateResult.unsupportedDimensions) :
    ∃ s2, (iterate inp s).result = IterResult.next s2 FrameOutcome.swapchainStale ∧
      s2.swapchainExtent = s.swapchainExtent ∧
      s2.images = s.images ∧
      s2.framebuffers = s.framebuffers ∧
      s2.viewportDims = s.viewportDims ∧
      s2.previousFrameEnd = s.previousFrameEnd ∧
      s2.recreateSwapchain = true ∧
      (∀ inp2 d2, inp2.caps.currentExtent = some d2 →
        StepTag.chainRecreate ∈ (iterate inp2 s2).steps) := by
  refine ⟨{ s with dimensions := d }, ?_, rfl, rfl, rfl, rfl, rfl, hflag, ?_⟩
  · rw [iterate_recreate_unsupported inp s d hflag hext hrec]
  · intro inp2 d2 he2
    have hf2 : ({ s with dimensions := d } : LoopState).recreateSwapchain = true := hflag
    cases hr2 : inp2.recreate with
    | unsupportedDimensions =>
      rw [iterate_recreate_unsupported _ _ _ hf2 he2 hr2]
      simp
    | otherError e =>
      rw [iterate_recreate_err _ _ _ _ hf2 he2 hr2]
      simp
    | ok imgs =>
      rw [iterate_recreate_ok _ _ _ _ hf2 he2 hr2]
      obtain ⟨t, ht, -⟩ := fbPhase_steps_append ..
      rw [ht]
      simp

/-- C1 witness: the theorem applied at a concrete stale state and a
concrete `UnsupportedDimensions` recreation result. -/
theorem c1_witness :
    stale800.recreateSwapchain = true ∧
    inpUnsupported.caps.currentExtent = some (400, 300) ∧
    inpUnsupported.recreate = RecreateResult.unsupportedDimensions ∧
    (∃ s2, (iterate inpUnsupported stale800).result =
        IterResult.next s2 FrameOutcome.swapchainStale ∧
      s2.swapchainExtent = stale800.swapchainExtent ∧
      s2.images = stale800.images ∧
      s2.framebuffers = stale800.framebuffers ∧
      s2.viewportDims = stale800.viewportDims ∧
      s2.previousFrameEnd = stale800.previousFrameEnd ∧
      s2.recreateSwapchain = true ∧
      (∀ inp2 d2, inp2.caps.currentExtent = some d2 →
        StepTag.chainRecreate ∈ (iterate inp2 s2).steps)) :=
  ⟨rfl, rfl, rfl,
   c1_unsupported_extent_recovery inpUnsupported stale800 (400, 300) rfl rfl rfl⟩

/-- C2: an `OutOfDate` acquisition ends the iteration with the staleness
flag set, no command submission (the in-flight token and its counter are
untouched, and no submit/present step ran), and the next iteration
performs chain recreation before any further acquisition; any other
acquisition error aborts the process. -/
theorem c2_acquire_out_of_date (inp : IterInput) (s : LoopState)
    (hacq : inp.acquire = AcquireResult.outOfDate) :
    (StepTag.imageAcquire ∈ (iterate inp s).steps →
      ∃ s2, (iterate inp s).result = IterResult.next s2 FrameOutcome.swapchainStale ∧
        s2.recreateSwapchain = true ∧
        s2.previousFrameEnd = s.previousFrameEnd ∧
        s2.futureCounter = s.futureCounter ∧
        StepTag.submit ∉ (iterate inp s).steps ∧
        StepTag.present ∉ (iterate inp s).steps ∧
        (∀ inp2, StepTag.imageAcquire ∈ (iterate inp2 s2).steps →
          (iterate inp2 s2).steps.take 2 = [StepTag.cleanup, StepTag.chainRecreate])) ∧
    (∀ inp3 s3 e, inp3.acquire = AcquireResult.otherError e →
      StepTag.imageAcquire ∈ (iterate inp3 s3).steps →
      (iterate inp3 s3).result = IterResult.panic e) := by
  constructor
  · intro hm
    cases hflag : s.recreateSwapchain with
    | false =>
      rw [iterate_flag_false inp s hflag]
      cases hf : s.framebuffers with
      | none =>
        rw [fbPhase_none _ _ _ hf, acquirePhase_outOfDate _ _ _ hacq]
        refine ⟨_, rfl, rfl, rfl, rfl, by simp, by simp, ?_⟩
        intro inp2 hm2
        exact iterate_acquire_first_of_stale inp2 _ rfl hm2
      | some fbs =>
        rw [fbPhase_some _ _ _ fbs hf, acquirePhase_outOfDate _ _ _ hacq]
        refine ⟨_, rfl, rfl, rfl, rfl, by simp, by simp, ?_⟩
        intro inp2 hm2
        exact iterate_acquire_first_of_stale inp2 _ rfl hm2
    | true =>
      cases he : inp.caps.currentExtent with
      | none =>
        rw [iterate_flag_true_none inp s hflag he] at hm
        simp at hm
      | some d =>
        cases hr : inp.recreate with
        | unsupportedDimensions =>
          rw [iterate_recreate_unsupported inp s d hflag he hr] at hm
          simp at hm
        | otherError e =>
          rw [iterate_recreate_err inp s d e hflag he hr] at hm
          simp at hm
        | ok imgs =>
          rw [iterate_recreate_ok inp s d imgs hflag he hr,
              fbPhase_none _ _ _ rfl, acquirePhase_outOfDate _ _ _ hacq]
          refine ⟨_, rfl, rfl, rfl, rfl, by simp, by simp, ?_⟩
          intro inp2 hm2
          exact iterate_acquire_first_of_stale inp2 _ rfl hm2
  · intro inp3 s3 e hacq3
    cases hflag : s3.recreateSwapchain with
    | false =>
      rw [iterate_flag_false inp3 s3 hflag]
      cases hf : s3.framebuffers with
      | none =>
        rw [fbPhase_none _ _ _ hf, acquirePhase_err _ _ _ e hacq3]
        intro _
        rfl
      | some fbs =>
        rw [fbPhase_some _ _ _ fbs hf, acquirePhase_err _ _ _ e hacq3]
        intro _
        rfl
    | true =>
      cases he : inp3.caps.currentExtent with
      | none =>
        rw [iterate_flag_true_none inp3 s3 hflag he]
        intro hm
        simp at hm
      | some d =>
        cases hr : inp3.recreate with
        | unsupportedDimensions =>
          rw [iterate_recreate_unsupported inp3 s3 d hflag he hr]
          intro hm
          simp at hm
        | otherError e2 =>
          rw [iterate_recreate_err inp3 s3 d e2 hflag he hr]
          intro hm
          simp at hm
        | ok imgs =>
          rw [iterate_recreate_ok inp3 s3 d imgs hflag he hr,
              fbPhase_none _ _ _ rfl, acquirePhase_err _ _ _ e hacq3]
          intro _
          rfl

/-- C2 witness: the theorem applied at a concrete healthy state receiving
an `OutOfDate` acquisition, with the fatal branch instantiated on a
concrete fatal acquisition error. -/
theorem c2_witness :
    inpAcqOOD.acquire = AcquireResult.outOfDate ∧
    StepTag.imageAcquire ∈ (iterate inpAcqOOD steadyState).steps ∧
    (∃ s2, (iterate inpAcqOOD steadyState).result =
        IterResult.next s2 FrameOutcome.swapchainStale ∧
      s2.recreateSwapchain = true ∧
      s2.previousFrameEnd = steadyState.previousFrameEnd ∧
      s2.futureCounter = steadyState.futureCounter ∧
      StepTag.submit ∉ (iterate inpAcqOOD steadyState).steps ∧
      StepTag.present ∉ (iterate inpAcqOOD steadyState).steps ∧
      (∀ inp2, StepTag.imageAcquire ∈ (iterate inp2 s2).steps →
        (iterate inp2 s2).steps.take 2 = [StepTag.cleanup, StepTag.chainRecreate])) ∧
    (iterate { cleanInput caps800 with acquire := .otherError "device lost" }
        steadyState).result = IterResult.panic "device lost" :=
  ⟨rfl, by decide,
   (c2_acquire_out_of_date inpAcqOOD steadyState rfl).1 (by decide),
   (c2_acquire_out_of_date inpAcqOOD steadyState rfl).2
     { cleanInput caps800 with acquire := .otherError "device lost" }
     steadyState "device lost" rfl (by decide)⟩

/-- C9: when the surface reports no deterministic current extent, startup
chain creation falls back to the fixed default 1024 × 768, while chain
recreation (any iteration entered with the staleness flag set) unwraps the
indeterminate extent and aborts the process. -/
theorem c9_indeterminate_extent_asymmetry (caps : Caps) (imgs : List Nat)
    (inp : IterInput) (s : LoopState)
    (hcaps : caps.currentExtent = none)
    (hflag : s.recreateSwapchain = true)
    (hext : inp.caps.currentExtent = none) :
    initialRequestedExtent caps = (1024, 768) ∧
    (initialState caps imgs).swapchainExtent = (1024, 768) ∧
    (iterate inp s).result =
      IterResult.panic "called Option::unwrap() on a None value" := by
  refine ⟨?_, ?_, ?_⟩
  · rw [initialRequestedExtent, hcaps]
    rfl
  · rw [initialState, initialRequestedExtent, hcaps]
    rfl
  · rw [iterate_flag_true_none inp s hflag hext]

/-- C9 witness: the theorem applied to concrete capabilities with an
indeterminate extent and a concrete stale state. -/
theorem c9_witness :
    capsNone.currentExtent = none ∧
    stale800.recreateSwapchain = true ∧
    (initialRequestedExtent capsNone = (1024, 768) ∧
     (initialState capsNone [10, 11]).swapchainExtent = (1024, 768) ∧
     (iterate (cleanInput capsNone) stale800).result =
       IterResult.panic "called Option::unwrap() on a None value") :=
  ⟨rfl, rfl,
   c9_indeterminate_extent_asymmetry capsNone [10, 11] (cleanInput capsNone) stale800
     rfl rfl rfl⟩

/-- C10: window events are polled only on iterations that reach the
present step.  Both recovery edges — `UnsupportedDimensions` during
recreation and `OutOfDate` during acquisition — skip the event poll and
never return from the loop (even if a close request is pending), and an
iteration that polls events necessarily performed the present step. -/
theorem c10_poll_only_after_present (inp : IterInput) (s : LoopState) (d : Extent) :
    (s.recreateSwapchain = true → inp.caps.currentExtent = some d →
      inp.recreate = RecreateResult.unsupportedDimensions →
      StepTag.eventPoll ∉ (iterate inp s).steps ∧
      (∀ s2 out, (iterate inp s).result ≠ IterResult.done s2 out) ∧
      (∃ s2, (iterate inp s).result = IterResult.next s2 FrameOutcome.swapchainStale)) ∧
    (s.recreateSwapchain = false → inp.acquire = AcquireResult.outOfDate →
      StepTag.eventPoll ∉ (iterate inp s).steps ∧
      (∀ s2 out, (iterate inp s).result ≠ IterResult.done s2 out) ∧
      (∃ s2, (iterate inp s).result = IterResult.next s2 FrameOutcome.swapchainStale)) ∧
    (StepTag.eventPoll ∈ (iterate inp s).steps →
      StepTag.present ∈ (iterate inp s).steps) := by
  refine ⟨?_, ?_, ?_⟩
  · intro hflag hext hrec
    rw [iterate_recreate_unsupported inp s d hflag hext hrec]
    exact ⟨by simp, fun s2 out h => by simp at h, ⟨_, rfl⟩⟩
  · intro hflag hacq
    rw [iterate_flag_false inp s hflag]
    cases hf : s.framebuffers with
    | none =>
      rw [fbPhase_none _ _ _ hf, acquirePhase_outOfDate _ _ _ hacq]
      exact ⟨by simp, fun s2 out h => by simp at h, ⟨_, rfl⟩⟩
    | some fbs =>
      rw [fbPhase_some _ _ _ fbs hf, acquirePhase_outOfDate _ _ _ hacq]
      exact ⟨by simp, fun s2 out h => by simp at h, ⟨_, rfl⟩⟩
  · cases hflag : s.recreateSwapchain with
    | false =>
      rw [iterate_flag_false inp s hflag]
      exact fbPhase_poll_present inp s _ (by decide)
    | true =>
      cases he : inp.caps.currentExtent with
      | none =>
        rw [iterate_flag_true_none inp s hflag he]
        intro hm
        simp at hm
      | some d2 =>
        cases hr : inp.recreate with
        | unsupportedDimensions =>
          rw [iterate_recreate_unsupported inp s d2 hflag he hr]
          intro hm
          simp at hm
        | otherError e =>
          rw [iterate_recreate_err inp s d2 e hflag he hr]
          intro hm
          simp at hm
        | ok imgs =>
          rw [iterate_recreate_ok inp s d2 imgs hflag he hr]
          exact fbPhase_poll_present inp _ _ (by decide)

/-- C10 witness: both recovery edges at concrete states with a close
request pending (showing it goes unobserved), and the poll-implies-present
direction at a concrete clean iteration that did poll. -/
theorem c10_witness :
    (StepTag.eventPoll ∉ (iterate inpUnsupportedClose stale800).steps ∧
     (∀ s2 out, (iterate inpUnsupportedClose stale800).result ≠ IterResult.done s2 out) ∧
     (∃ s2, (iterate inpUnsupportedClose stale800).result =
        IterResult.next s2 FrameOutcome.swapchainStale)) ∧
    (StepTag.eventPoll ∉ (iterate { inpAcqOOD with events := [WEvent.closeRequested] }
        steadyState).steps ∧
     (∀ s2 out, (iterate { inpAcqOOD with events := [WEvent.closeRequested] }
        steadyState).result ≠ IterResult.done s2 out) ∧
     (∃ s2, (iterate { inpAcqOOD with events := [WEvent.closeRequested] }
        steadyState).result = IterResult.next s2 FrameOutcome.swapchainStale)) ∧
    StepTag.present ∈ (iterate (cleanInput caps800) steadyState).steps :=
  ⟨(c10_poll_only_after_present inpUnsupportedClose stale800 (400, 300)).1
     rfl rfl rfl,
   (c10_poll_only_after_present { inpAcqOOD with events := [WEvent.closeRequested] }
     steadyState (0, 0)).2.1 rfl rfl,
   (c10_poll_only_after_present (cleanInput caps800) steadyState (0, 0)).2.2
     (by decide)⟩

theorem iterate_submit_reach (inp : IterInput) (s : LoopState) (fbs : List Framebuffer)
    (n : Nat) (fb : Framebuffer)
    (hflag : s.recreateSwapchain = false)
    (hf : s.framebuffers = some fbs)
    (hacq : inp.acquire = AcquireResult.ok n)
    (hfb : fbs[n]? = some fb) :
    iterate inp s = submitPhase inp s [StepTag.cleanup, StepTag.imageAcquire] fb n := by
  rw [iterate_flag_false inp s hflag, fbPhase_some _ _ _ fbs hf,
      acquirePhase_ok _ _ _ n fb hacq (by rw [hf]; exact hfb)]
  rfl

/-- C3: after the present/flush step the in-flight token is always
replaced with a token fresher than the one held before: on success the
composed (join → execute → present → fence) future becomes the new token;
on `OutOfDate` the staleness flag is set and a fresh already-complete
token takes its place; on any other error the message is reported in the
iteration's outcome, a fresh already-complete token takes its place, and
the loop continues. -/
theorem c3_flush_token_replacement (inp : IterInput) (s : LoopState)
    (fbs : List Framebuffer) (n : Nat) (fb : Framebuffer)
    (hflag : s.recreateSwapchain = false)
    (hf : s.framebuffers = some fbs)
    (hacq : inp.acquire = AcquireResult.ok n)
    (hfb : fbs[n]? = some fb)
    (hclose : WEvent.closeRequested ∉ inp.events)
    (htok : tokId s.previousFrameEnd < s.futureCounter) :
    (inp.flush = FlushResult.ok →
      ∃ s2, (iterate inp s).result = IterResult.next s2 FrameOutcome.presented ∧
        s2.previousFrameEnd =
          GpuFut.fence
            (GpuFut.present
              (GpuFut.execute
                (GpuFut.join s.previousFrameEnd (GpuFut.acquired s.futureCounter))
                (recordCommands fb))
              n)
            (s.futureCounter + 1) ∧
        s2.previousFrameEnd ≠ s.previousFrameEnd) ∧
    (inp.flush = FlushResult.outOfDate →
      ∃ s2, (iterate inp s).result = IterResult.next s2 FrameOutcome.swapchainStale ∧
        s2.recreateSwapchain = true ∧
        s2.previousFrameEnd = GpuFut.now (s.futureCounter + 1) ∧
        s2.previousFrameEnd ≠ s.previousFrameEnd) ∧
    (∀ e, inp.flush = FlushResult.otherError e →
      ∃ s2, (iterate inp s).result = IterResult.next s2 (FrameOutcome.droppedFrame e) ∧
        s2.previousFrameEnd = GpuFut.now (s.futureCounter + 1) ∧
        s2.previousFrameEnd ≠ s.previousFrameEnd) := by
  rw [iterate_submit_reach inp s fbs n fb hflag hf hacq hfb]
  have hpoll : pollDone inp.events = false := pollDone_eq_false inp.events hclose
  refine ⟨?_, ?_, ?_⟩
  · intro hflush
    rw [submitPhase_flush_ok _ _ _ _ _ hflush, eventPhase_continue _ _ _ _ hpoll]
    refine ⟨_, rfl, rfl, ?_⟩
    intro h
    have h2 := congrArg tokId h
    simp only [tokId] at h2
    omega
  · intro hflush
    rw [submitPhase_flush_outOfDate _ _ _ _ _ hflush, eventPhase_continue _ _ _ _ hpoll]
    refine ⟨_, rfl, rfl, rfl, ?_⟩
    intro h
    have h2 := congrArg tokId h
    simp only [tokId] at h2
    omega
  · intro e hflush
    rw [submitPhase_flush_err _ _ _ _ _ e hflush, eventPhase_continue _ _ _ _ hpoll]
    refine ⟨_, rfl, rfl, ?_⟩
    intro h
    have h2 := congrArg tokId h
    simp only [tokId] at h2
    omega

/-- C3 witness: the theorem applied at a concrete healthy state for each
of the three flush results. -/
theorem c3_witness :
    (∃ s2, (iterate (cleanInput caps800) steadyState).result =
        IterResult.next s2 FrameOutcome.presented ∧
      s2.previousFrameEnd =
        GpuFut.fence
          (GpuFut.present
            (GpuFut.execute
              (GpuFut.join steadyState.previousFrameEnd
                (GpuFut.acquired steadyState.futureCounter))
              (recordCommands ⟨10⟩))
            0)
          (steadyState.futureCounter + 1) ∧
      s2.previousFrameEnd ≠ steadyState.previousFrameEnd) ∧
    (∃ s2, (iterate { cleanInput caps800 with flush := .outOfDate } steadyState).result =
        IterResult.next s2 FrameOutcome.swapchainStale ∧
      s2.recreateSwapchain = true ∧
      s2.previousFrameEnd = GpuFut.now (steadyState.futureCounter + 1) ∧
      s2.previousFrameEnd ≠ steadyState.previousFrameEnd) ∧
    (∃ s2, (iterate { cleanInput caps800 with flush := .otherError "flush failed" }
        steadyState).result =
        IterResult.next s2 (FrameOutcome.droppedFrame "flush failed") ∧
      s2.previousFrameEnd = GpuFut.now (steadyState.futureCounter + 1) ∧
      s2.previousFrameEnd ≠ steadyState.previousFrameEnd) :=
  ⟨(c3_flush_token_replacement (cleanInput caps800) steadyState [⟨10⟩, ⟨11⟩] 0 ⟨10⟩
      rfl rfl rfl rfl (by decide) (by decide)).1 rfl,
   (c3_flush_token_replacement { cleanInput caps800 with flush := .outOfDate }
      steadyState [⟨10⟩, ⟨11⟩] 0 ⟨10⟩
      rfl rfl rfl rfl (by decide) (by decide)).2.1 rfl,
   (c3_flush_token_replacement { cleanInput caps800 with flush := .otherError "flush failed" }
      steadyState [⟨10⟩, ⟨11⟩] 0 ⟨10⟩
      rfl rfl rfl rfl (by decide) (by decide)).2.2 "flush failed" rfl⟩

/-- C8: a frame that reaches submission records exactly one render pass,
against the render target at the acquired image index, with the fixed
clear color `[0.0, 0.0, 1.0, 1.0]`, containing exactly one draw call with
vertex count 3, instance count 1, and no vertex or index buffers; the
submitted work waits on the join of the previous frame's completion
signal and the acquired image's readiness signal before signaling the new
completion token. -/
theorem c8_single_bufferless_draw (inp : IterInput) (s : LoopState)
    (fbs : List Framebuffer) (n : Nat) (fb : Framebuffer)
    (hflag : s.recreateSwapchain = false)
    (hf : s.framebuffers = some fbs)
    (hacq : inp.acquire = AcquireResult.ok n)
    (hfb : fbs[n]? = some fb)
    (hflush : inp.flush = FlushResult.ok)
    (hclose : WEvent.closeRequested ∉ inp.events) :
    StepTag.submit ∈ (iterate inp s).steps ∧
    ∃ s2, (iterate inp s).result = IterResult.next s2 FrameOutcome.presented ∧
      s2.previousFrameEnd =
        GpuFut.fence
          (GpuFut.present
            (GpuFut.execute
              (GpuFut.join s.previousFrameEnd (GpuFut.acquired s.futureCounter))
              { passes := [ { target := fb
                            , clearColor := (0, 0, 1, 1)
                            , draws := [ { vertexCount := 3
                                         , instanceCount := 1
                                         , vertexBufferCount := 0
                                         , indexBufferCount := 0 } ] } ] })
            n)
          (s.futureCounter + 1) := by
  rw [iterate_submit_reach inp s fbs n fb hflag hf hacq hfb,
      submitPhase_flush_ok _ _ _ _ _ hflush,
      eventPhase_continue _ _ _ _ (pollDone_eq_false inp.events hclose)]
  exact ⟨by simp, _, rfl, rfl⟩

/-- C8 witness: the theorem applied at a concrete healthy state acquiring
image index 1. -/
theorem c8_witness :
    StepTag.submit ∈
      (iterate { cleanInput caps800 with acquire := .ok 1 } steadyState).steps ∧
    ∃ s2, (iterate { cleanInput caps800 with acquire := .ok 1 } steadyState).result =
        IterResult.next s2 FrameOutcome.presented ∧
      s2.previousFrameEnd =
        GpuFut.fence
          (GpuFut.present
            (GpuFut.execute
              (GpuFut.join steadyState.previousFrameEnd
                (GpuFut.acquired steadyState.futureCounter))
              { passes := [ { target := ⟨11⟩
                            , clearColor := (0, 0, 1, 1)
                            , draws := [ { vertexCount := 3
                                         , instanceCount := 1
                                         , vertexBufferCount := 0
                                         , indexBufferCount := 0 } ] } ] })
            1)
          (steadyState.futureCounter + 1) :=
  c8_single_bufferless_draw { cleanInput caps800 with acquire := .ok 1 } steadyState
    [⟨10⟩, ⟨11⟩] 1 ⟨11⟩ rfl rfl rfl rfl rfl (by decide)

/-! ### Successor-state lemmas -/

theorem eventPhase_succState (inp : IterInput) (s : LoopState) (steps : List StepTag)
    (out : FrameOutcome) :
    succState (eventPhase inp s steps out).result = some s := by
  unfold eventPhase
  cases hp : pollDone inp.events <;> simp [hp, succState]

theorem submitPhase_succState (inp : IterInput) (s : LoopState) (steps : List StepTag)
    (fb : Framebuffer) (n : Nat) :
    ∀ s2, succState (submitPhase inp s steps fb n).result = some s2 →
      s2.swapchainExtent = s.swapchainExtent ∧
      s2.images = s.images ∧
      s2.viewportDims = s.viewportDims ∧
      s2.framebuffers = s.framebuffers := by
  intro s2 h
  cases hflush : inp.flush with
  | ok =>
    rw [submitPhase_flush_ok _ _ _ _ _ hflush, eventPhase_succState] at h
    cases h
    exact ⟨rfl, rfl, rfl, rfl⟩
  | outOfDate =>
    rw [submitPhase_flush_outOfDate _ _ _ _ _ hflush, eventPhase_succState] at h
    cases h
    exact ⟨rfl, rfl, rfl, rfl⟩
  | otherError e =>
    rw [submitPhase_flush_err _ _ _ _ _ e hflush, eventPhase_succState] at h
    cases h
    exact ⟨rfl, rfl, rfl, rfl⟩

theorem acquirePhase_succState (inp : IterInput) (s : LoopState) (steps : List StepTag) :
    ∀ s2, succState (acquirePhase inp s steps).result = some s2 →
      s2.swapchainExtent = s.swapchainExtent ∧
      s2.images = s.images ∧
      s2.viewportDims = s.viewportDims ∧
      s2.framebuffers = s.framebuffers := by
  intro s2 h
  cases ha : inp.acquire with
  | outOfDate =>
    rw [acquirePhase_outOfDate _ _ _ ha] at h
    cases h
    exact ⟨rfl, rfl, rfl, rfl⟩
  | otherError e =>
    rw [acquirePhase_err _ _ _ e ha] at h
    simp [succState] at h
  | ok n =>
    cases hfb : (s.framebuffers.getD [])[n]? with
    | none =>
      rw [acquirePhase_ok_oob _ _ _ n ha hfb] at h
      simp [succState] at h
    | some fb =>
      rw [acquirePhase_ok _ _ _ n fb ha hfb] at h
      exact submitPhase_succState inp s _ fb n s2 h

theorem fbPhase_succState (inp : IterInput) (s : LoopState) (steps : List StepTag) :
    ∀ s2, succState (fbPhase inp s steps).result = some s2 →
      s2.swapchainExtent = s.swapchainExtent ∧
      s2.images = s.images ∧
      s2.viewportDims = s.viewportDims ∧
      (s2.framebuffers = some (s.images.map Framebuffer.mk) ∨
        (∃ fbs, s.framebuffers = some fbs ∧ s2.framebuffers = some fbs)) := by
  intro s2 h
  cases hf : s.framebuffers with
  | none =>
    rw [fbPhase_none _ _ _ hf] at h
    obtain ⟨h1, h2, h3, h4⟩ := acquirePhase_succState _ _ _ s2 h
    exact ⟨h1, h2, h3, Or.inl h4⟩
  | some fbs =>
    rw [fbPhase_some _ _ _ fbs hf] at h
    obtain ⟨h1, h2, h3, h4⟩ := acquirePhase_succState _ _ _ s2 h
    exact ⟨h1, h2, h3, Or.inr ⟨fbs, rfl, by rw [h4]; exact hf⟩⟩

/-- An iteration begun with the staleness flag down vs. up. -/
theorem fbPhase_no_chainRecreate (inp : IterInput) (s : LoopState) (steps : List StepTag)
    (h : StepTag.chainRecreate ∉ steps) :
    StepTag.chainRecreate ∉ (fbPhase inp s steps).steps := by
  obtain ⟨t, ht, hc⟩ := fbPhase_steps_append inp s steps
  rw [ht]
  intro hm
  rcases List.mem_append.mp hm with hm | hm
  · exact absurd hm h
  · exact absurd hm hc

/-- Input for an iteration during which the surface reports a new
400 × 300 extent (and a resize event is pending) while every collaborator
result is healthy. -/
def inpResize : IterInput :=
  { caps := caps400, recreate := .ok [], acquire := .ok 0, flush := .ok
  , events := [WEvent.resized (400, 300)] }

/-- C6 counterexample: with the staleness flag down, a surface-reported
extent change alone (the surface now reports 400 × 300 while the chain is
800 × 600, with a resize event pending) does NOT trigger chain
recreation: no recreation step runs, the chain keeps its old extent, and
the frame is presented as usual. -/
theorem c6_counterexample :
    steadyState.swapchainExtent = (800, 600) ∧
    steadyState.recreateSwapchain = false ∧
    inpResize.caps.currentExtent = some (400, 300) ∧
    StepTag.chainRecreate ∉ (iterate inpResize steadyState).steps ∧
    (succState (iterate inpResize steadyState).result).map
        (fun s2 => (s2.swapchainExtent, s2.recreateSwapchain)) =
      some ((800, 600), false) := by
  refine ⟨rfl, rfl, rfl, by decide, by decide⟩

/-- C6 (amended): chain recreation is performed at the chain-check step
exactly when a prior iteration set the staleness flag (and the surface
reports a usable extent); with the flag down no recreation step runs in
the iteration and the chain's extent and image set are left untouched —
a surface-reported extent change alone does not trigger recreation. -/
theorem c6_stale_flag_triggers_recreate (inp : IterInput) (s : LoopState) (d : Extent) :
    (s.recreateSwapchain = true → inp.caps.currentExtent = some d →
      StepTag.chainRecreate ∈ (iterate inp s).steps) ∧
    (s.recreateSwapchain = false →
      StepTag.chainRecreate ∉ (iterate inp s).steps ∧
      (∀ s2, succState (iterate inp s).result = some s2 →
        s2.swapchainExtent = s.swapchainExtent ∧ s2.images = s.images)) := by
  constructor
  · intro hflag he
    cases hr : inp.recreate with
    | unsupportedDimensions =>
      rw [iterate_recreate_unsupported _ _ _ hflag he hr]
      simp
    | otherError e =>
      rw [iterate_recreate_err _ _ _ _ hflag he hr]
      simp
    | ok imgs =>
      rw [iterate_recreate_ok _ _ _ _ hflag he hr]
      obtain ⟨t, ht, -⟩ := fbPhase_steps_append ..
      rw [ht]
      simp
  · intro hflag
    rw [iterate_flag_false inp s hflag]
    refine ⟨fbPhase_no_chainRecreate inp s _ (by decide), ?_⟩
    intro s2 h
    obtain ⟨h1, h2, -, -⟩ := fbPhase_succState _ _ _ s2 h
    exact ⟨h1, h2⟩

/-- C6 witness: the amended theorem applied at a concrete stale state
(recreation runs) and at `c6_counterexample`'s healthy state (it does
not). -/
theorem c6_witness :
    StepTag.chainRecreate ∈ (iterate (cleanInput caps400) stale800).steps ∧
    (StepTag.chainRecreate ∉ (iterate inpResize steadyState).steps ∧
      (∀ s2, succState (iterate inpResize steadyState).result = some s2 →
        s2.swapchainExtent = steadyState.swapchainExtent ∧
        s2.images = steadyState.images)) :=
  ⟨(c6_stale_flag_triggers_recreate (cleanInput caps400) stale800 (400, 300)).1 rfl rfl,
   (c6_stale_flag_triggers_recreate inpResize steadyState (400, 300)).2 rfl⟩

/-- Componentwise clamp of an extent to a `[min, max]` range. -/
def clampExtent (hint mn mx : Extent) : Extent :=
  (max mn.1 (min hint.1 mx.1), max mn.2 (min hint.2 mx.2))

/-- Spec-side definition following the specification's words for the
extent requested at chain (re)creation: the `extent_hint` clamped to the
surface's reported `[min, max]` extent, or the surface-reported current
extent when it is deterministic.  Stated for comparison with the
source-side `initialRequestedExtent` and recreation behaviour. -/
def specRequestedExtent (caps : Caps) (hint : Extent) : Extent :=
  match caps.currentExtent with
  | some e => e
  | none => clampExtent hint caps.minExtent caps.maxExtent

/-- Healthy rebuild input: surface reports 400 × 300, recreation succeeds
with a single new image (id 20), image 0 is acquired, flush succeeds. -/
def inpRebuild400 : IterInput := ⟨caps400, .ok [20], .ok 0, .ok, []⟩

/-- The state after one clean iteration from `steadyState`. -/
def steadyNext : LoopState :=
  { steadyState with
    previousFrameEnd :=
      GpuFut.fence
        (GpuFut.present
          (GpuFut.execute (GpuFut.join (GpuFut.now 0) (GpuFut.acquired 1))
            (recordCommands ⟨10⟩))
          0)
        2
  , futureCounter := 3 }

/-- The state after a successful 400 × 300 rebuild iteration from
`stale800`. -/
def rebuild400Next : LoopState :=
  { dimensions := (400, 300)
  , swapchainExtent := (400, 300)
  , images := [20]
  , framebuffers := some [⟨20⟩]
  , recreateSwapchain := false
  , previousFrameEnd :=
      GpuFut.fence
        (GpuFut.present
          (GpuFut.execute (GpuFut.join (GpuFut.now 0) (GpuFut.acquired 1))
            (recordCommands ⟨20⟩))
          0)
        2
  , viewportDims := viewportOf (400, 300)
  , futureCounter := 3 }

/-- C7 counterexample: with an indeterminate current extent whose
supported range tops out at 800 × 600, startup creation requests the
fixed default 1024 × 768 — not the hint clamped into `[min, max]` as the
claim states — and recreation in the same situation aborts instead of
requesting any extent. -/
theorem c7_counterexample :
    capsNone.currentExtent = none ∧
    capsNone.maxExtent = (800, 600) ∧
    initialRequestedExtent capsNone = (1024, 768) ∧
    specRequestedExtent capsNone (initialRequestedExtent capsNone) = (800, 600) ∧
    initialRequestedExtent capsNone ≠
      specRequestedExtent capsNone (initialRequestedExtent capsNone) ∧
    (iterate (cleanInput capsNone) stale800).result =
      IterResult.panic "called Option::unwrap() on a None value" :=
  ⟨rfl, rfl, rfl, by decide, by decide, by decide⟩

/-- C7 (amended): when the surface reports a deterministic current
extent, creation requests exactly that extent and recreation rebuilds
the chain at exactly that extent; when the extent is indeterminate,
creation requests the fixed default 1024 × 768 without clamping it to
the surface's `[min, max]` range, and recreation aborts the process. -/
theorem c7_requested_extent (caps : Caps) (d : Extent) (inp : IterInput)
    (s : LoopState) (newImages : List Nat) :
    (caps.currentExtent = some d →
      initialRequestedExtent caps = d ∧
      initialRequestedExtent caps = specRequestedExtent caps d) ∧
    (caps.currentExtent = none → initialRequestedExtent caps = (1024, 768)) ∧
    (s.recreateSwapchain = true → inp.caps.currentExtent = some d →
      inp.recreate = RecreateResult.ok newImages →
      ∀ s2, succState (iterate inp s).result = some s2 →
        s2.swapchainExtent = d ∧ s2.images = newImages) ∧
    (s.recreateSwapchain = true → inp.caps.currentExtent = none →
      (iterate inp s).result =
        IterResult.panic "called Option::unwrap() on a None value") := by
  refine ⟨?_, ?_, ?_, ?_⟩
  · intro h
    constructor
    · rw [initialRequestedExtent, h]
      rfl
    · rw [initialRequestedExtent, specRequestedExtent, h]
      rfl
  · intro h
    rw [initialRequestedExtent, h]
    rfl
  · intro hflag he hr s2 h2
    rw [iterate_recreate_ok _ _ _ _ hflag he hr] at h2
    obtain ⟨h3, h4, -, -⟩ := fbPhase_succState _ _ _ s2 h2
    exact ⟨h3, h4⟩
  · intro hflag he
    rw [iterate_flag_true_none inp s hflag he]

/-- C7 witness: the amended theorem applied at concrete capabilities with
a deterministic extent, concrete indeterminate capabilities, a concrete
successful rebuild, and a concrete indeterminate recreation. -/
theorem c7_witness :
    (initialRequestedExtent caps800 = (800, 600) ∧
      initialRequestedExtent caps800 = specRequestedExtent caps800 (800, 600)) ∧
    initialRequestedExtent capsNone = (1024, 768) ∧
    (rebuild400Next.swapchainExtent = (400, 300) ∧ rebuild400Next.images = [20]) ∧
    (iterate (cleanInput capsNone) stale800).result =
      IterResult.panic "called Option::unwrap() on a None value" :=
  ⟨(c7_requested_extent caps800 (800, 600) (cleanInput caps800) steadyState []).1 rfl,
   (c7_requested_extent capsNone (800, 600) (cleanInput capsNone) steadyState []).2.1 rfl,
   (c7_requested_extent caps400 (400, 300) inpRebuild400 stale800 [20]).2.2.1
     rfl rfl rfl rebuild400Next (by decide),
   (c7_requested_extent capsNone (800, 600) (cleanInput capsNone) stale800 []).2.2.2
     rfl rfl⟩

/-- Loop invariant relating the render-target set and viewport state to
the presentation chain: when the staleness flag is set the framebuffers
are built; whenever framebuffers exist they are exactly one binding per
chain image, index aligned (binding i wraps image i); and the viewport
dimensions always equal the chain's current extent. -/
def LoopInv (s : LoopState) : Prop :=
  (s.recreateSwapchain = true → s.framebuffers.isSome = true) ∧
  (s.framebuffers.isSome = true →
    s.framebuffers.getD [] = s.images.map Framebuffer.mk) ∧
  s.viewportDims = viewportOf s.swapchainExtent

instance (s : LoopState) : Decidable (LoopInv s) :=
  inferInstanceAs (Decidable ((_ → _) ∧ (_ → _) ∧ _ = _))

/-- C4: the invariant holds at startup and is preserved by every
iteration; moreover every non-aborting iteration leaves the loop with a
built render-target set holding exactly one binding per chain image
(equal lengths, index aligned) and a viewport equal to the chain's
current extent; concretely, startup at 800 × 600 yields viewport
`[800.0, 600.0]` and a successful rebuild at 400 × 300 yields viewport
`[400.0, 300.0]`. -/
theorem c4_render_targets_viewport (caps : Caps) (imgs : List Nat) (inp : IterInput)
    (s s2 : LoopState) (inp3 : IterInput) (s3 : LoopState) (imgs2 : List Nat)
    (s4 : LoopState) :
    LoopInv (initialState caps imgs) ∧
    (LoopInv s → succState (iterate inp s).result = some s2 →
      LoopInv s2 ∧
      s2.framebuffers.isSome = true ∧
      s2.framebuffers.getD [] = s2.images.map Framebuffer.mk ∧
      (s2.framebuffers.getD []).length = s2.images.length ∧
      s2.viewportDims = viewportOf s2.swapchainExtent) ∧
    (initialState caps800 imgs).viewportDims = ((800 : F32), (600 : F32)) ∧
    (s3.recreateSwapchain = true → inp3.caps.currentExtent = some (400, 300) →
      inp3.recreate = RecreateResult.ok imgs2 →
      succState (iterate inp3 s3).result = some s4 →
      s4.viewportDims = ((400 : F32), (300 : F32))) := by
  refine ⟨⟨?_, ?_, rfl⟩, ?_, ?_, ?_⟩
  · intro h
    simp [initialState] at h
  · intro h
    simp [initialState] at h
  · intro hInv hsucc
    obtain ⟨hInv1, hInv2, hInv3⟩ := hInv
    cases hflag : s.recreateSwapchain with
    | false =>
      rw [iterate_flag_false inp s hflag] at hsucc
      obtain ⟨h1, h2, h3, h4⟩ := fbPhase_succState _ _ _ s2 hsucc
      have hfb : s2.framebuffers = some (s2.images.map Framebuffer.mk) := by
        rcases h4 with h4 | ⟨fbs, hsf, hs2f⟩
        · rw [h4, h2]
        · have hs : s.framebuffers.getD [] = s.images.map Framebuffer.mk :=
            hInv2 (by rw [hsf]; rfl)
          rw [hsf] at hs
          rw [hs2f, h2]
          exact congrArg some hs
      have hvp : s2.viewportDims = viewportOf s2.swapchainExtent := by
        rw [h3, hInv3, h1]
      refine ⟨⟨fun _ => by rw [hfb]; rfl, fun _ => by rw [hfb]; rfl, hvp⟩,
        by rw [hfb]; rfl, by rw [hfb]; rfl, ?_, hvp⟩
      rw [hfb]
      simp
    | true =>
      cases he : inp.caps.currentExtent with
      | none =>
        rw [iterate_flag_true_none inp s hflag he] at hsucc
        simp [succState] at hsucc
      | some d =>
        cases hr : inp.recreate with
        | unsupportedDimensions =>
          rw [iterate_recreate_unsupported inp s d hflag he hr] at hsucc
          simp only [succState, Option.some_inj] at hsucc
          have hfb : s2.framebuffers = some (s2.images.map Framebuffer.mk) := by
            have hsome := hInv1 hflag
            have hs := hInv2 hsome
            rw [← hsucc]
            cases hfx : s.framebuffers with
            | none => rw [hfx] at hsome; simp at hsome
            | some fbs =>
              rw [hfx] at hs
              exact congrArg some hs
          have hvp : s2.viewportDims = viewportOf s2.swapchainExtent := by
            rw [← hsucc]
            exact hInv3
          refine ⟨⟨fun _ => by rw [hfb]; rfl, fun _ => by rw [hfb]; rfl, hvp⟩,
            by rw [hfb]; rfl, by rw [hfb]; rfl, ?_, hvp⟩
          rw [hfb]
          simp
        | otherError e =>
          rw [iterate_recreate_err inp s d e hflag he hr] at hsucc
          simp [succState] at hsucc
        | ok imgs3 =>
          rw [iterate_recreate_ok inp s d imgs3 hflag he hr] at hsucc
          obtain ⟨h1, h2, h3, h4⟩ := fbPhase_succState _ _ _ s2 hsucc
          have hfb : s2.framebuffers = some (s2.images.map Framebuffer.mk) := by
            rcases h4 with h4 | ⟨fbs, hsf, hs2f⟩
            · rw [h4, h2]
            · simp at hsf
          have hvp : s2.viewportDims = viewportOf s2.swapchainExtent := by
            rw [h3, h1]
          refine ⟨⟨fun _ => by rw [hfb]; rfl, fun _ => by rw [hfb]; rfl, hvp⟩,
            by rw [hfb]; rfl, by rw [hfb]; rfl, ?_, hvp⟩
          rw [hfb]
          simp
  · rfl
  · intro hflag he hr hsucc
    rw [iterate_recreate_ok inp3 s3 (400, 300) imgs2 hflag he hr] at hsucc
    obtain ⟨-, -, h3, -⟩ := fbPhase_succState _ _ _ s4 hsucc
    rw [h3]
    rfl

/-- C4 witness: the theorem applied along a concrete clean iteration from
`steadyState` and a concrete 400 × 300 rebuild from `stale800`. -/
theorem c4_witness :
    (LoopInv steadyNext ∧
      steadyNext.framebuffers.isSome = true ∧
      steadyNext.framebuffers.getD [] = steadyNext.images.map Framebuffer.mk ∧
      (steadyNext.framebuffers.getD []).length = steadyNext.images.length ∧
      steadyNext.viewportDims = viewportOf steadyNext.swapchainExtent) ∧
    rebuild400Next.viewportDims = ((400 : F32), (300 : F32)) :=
  ⟨(c4_render_targets_viewport caps800 [10, 11] (cleanInput caps800) steadyState
      steadyNext inpRebuild400 stale800 [20] rebuild400Next).2.1
      (by decide) (by decide),
   (c4_render_targets_viewport caps800 [10, 11] (cleanInput caps800) steadyState
      steadyNext inpRebuild400 stale800 [20] rebuild400Next).2.2.2
      rfl rfl rfl (by decide)⟩

/-- A state from which an error-free frame can be produced: staleness
flag down, framebuffers built and nonempty, and the in-flight token's
ghost id strictly below the allocation counter. -/
def Steady (s : LoopState) : Prop :=
  s.recreateSwapchain = false ∧
  s.framebuffers.isSome = true ∧
  (s.framebuffers.getD []).length ≠ 0 ∧
  tokId s.previousFrameEnd < s.futureCounter

instance (s : LoopState) : Decidable (Steady s) :=
  inferInstanceAs (Decidable (_ ∧ _ ∧ _ ∧ _))

theorem steady_step (caps : Caps) (s : LoopState) (h : Steady s) :
    ∃ s2, (iterate (cleanInput caps) s).result =
        IterResult.next s2 FrameOutcome.presented ∧
      Steady s2 ∧
      s2.framebuffers = s.framebuffers ∧
      tokId s.previousFrameEnd < tokId s2.previousFrameEnd ∧
      tokId s2.previousFrameEnd = s.futureCounter + 1 ∧
      s2.futureCounter = s.futureCounter + 2 := by
  obtain ⟨h1, h2, h3, h4⟩ := h
  cases hf : s.framebuffers with
  | none => rw [hf] at h2; simp at h2
  | some fbs =>
    have hlen : (s.framebuffers.getD []).length ≠ 0 := h3
    rw [hf] at hlen
    obtain ⟨fb, hfb⟩ : ∃ fb, fbs[0]? = some fb := by
      cases fbs with
      | nil => simp at hlen
      | cons a l => exact ⟨a, by simp⟩
    rw [iterate_submit_reach (cleanInput caps) s fbs 0 fb h1 hf rfl hfb,
        submitPhase_flush_ok (cleanInput caps) _ _ _ _ rfl,
        eventPhase_continue (cleanInput caps) _ _ _ rfl]
    refine ⟨_, rfl, ⟨h1, h2, h3, ?_⟩, hf, ?_, rfl, rfl⟩
    · simp only [tokId]
      omega
    · simp only [tokId]
      omega

theorem clean_run_aux (caps : Caps) : ∀ (N : Nat) (s : LoopState), Steady s →
    (∃ s2, run (List.replicate N (cleanInput caps)) s =
        RunResult.running s2 (List.replicate N FrameOutcome.presented)) ∧
    (tokenTrace (List.replicate N (cleanInput caps)) s).length = N ∧
    List.Chain' (fun a b => tokId a < tokId b)
      (s.previousFrameEnd :: tokenTrace (List.replicate N (cleanInput caps)) s) := by
  intro N
  induction N with
  | zero =>
    intro s hs
    exact ⟨⟨s, rfl⟩, rfl, List.chain'_singleton _⟩
  | succ n ih =>
    intro s hs
    obtain ⟨s2, hres, hsteady, -, hlt, -, -⟩ := steady_step caps s hs
    obtain ⟨⟨s3, hrun⟩, hlen, hchain⟩ := ih s2 hsteady
    simp only [List.replicate_succ]
    refine ⟨⟨s3, ?_⟩, ?_, ?_⟩
    · simp only [run, hres, hrun]
    · simp only [tokenTrace, hres, List.length_cons, hlen]
    · simp only [tokenTrace, hres]
      exact List.chain'_cons.mpr ⟨hlt, hchain⟩

/-- C5: starting from any steady state, N consecutive iterations with
error-free collaborator results produce exactly N `presented` outcomes,
and the in-flight token is replaced exactly N times — the successive
tokens have strictly increasing ghost ids, so together with the starting
token they are pairwise distinct (never reused, never dropped without
replacement). -/
theorem c5_clean_run (caps : Caps) (N : Nat) (s : LoopState) (hs : Steady s) :
    (∃ s2, run (List.replicate N (cleanInput caps)) s =
        RunResult.running s2 (List.replicate N FrameOutcome.presented)) ∧
    (tokenTrace (List.replicate N (cleanInput caps)) s).length = N ∧
    List.Chain' (fun a b => tokId a < tokId b)
      (s.previousFrameEnd :: tokenTrace (List.replicate N (cleanInput caps)) s) ∧
    (s.previousFrameEnd :: tokenTrace (List.replicate N (cleanInput caps)) s).Pairwise
      (fun a b => a ≠ b) := by
  obtain ⟨h1, h2, h3⟩ := clean_run_aux caps N s hs
  refine ⟨h1, h2, h3, ?_⟩
  haveI : IsTrans GpuFut (fun a b => tokId a < tokId b) :=
    ⟨fun a b c hab hbc => Nat.lt_trans hab hbc⟩
  have hp := List.chain'_iff_pairwise.mp h3
  exact hp.imp fun hab heq => by rw [heq] at hab; omega

/-- C5 witness: three clean iterations from `steadyState`. -/
theorem c5_witness :
    Steady steadyState ∧
    ((∃ s2, run (List.replicate 3 (cleanInput caps800)) steadyState =
        RunResult.running s2 (List.replicate 3 FrameOutcome.presented)) ∧
     (tokenTrace (List.replicate 3 (cleanInput caps800)) steadyState).length = 3 ∧
     List.Chain' (fun a b => tokId a < tokId b)
       (steadyState.previousFrameEnd ::
         tokenTrace (List.replicate 3 (cleanInput caps800)) steadyState) ∧
     (steadyState.previousFrameEnd ::
         tokenTrace (List.replicate 3 (cleanInput caps800)) steadyState).Pairwise
       (fun a b => a ≠ b)) :=
  ⟨by decide, c5_clean_run caps800 3 steadyState (by decide)⟩
